import Mathlib

/-!
Verification of the csv2ofx conversion driver (src/csv2ofx/main.py).

The embedding below translates the pure fragments of `run` and the CLI
defaults into Lean.  Parts of the repository that the claims need but that
are not under src/ (the OFX/QIF renderers, csv2ofx.utils, the meza write
helper) are modelled from the specification; each such definition carries a
doc comment starting with "Modelled from the spec:".  Calendar dates and
timestamps are modelled as integers that stand for already-parsed values.
-/

namespace Csv2ofx

/-- Account types accepted by the -a (account) CLI option: the TYPES list of
main.py line 54, the union of the OFX and QIF sets. -/
def TYPES : List String := ["CHECKING", "SAVINGS", "MONEYMRKT", "CREDITLINE", "Bank", "Cash"]

/-- Modelled from the spec: the OFX grammar's closed account-type set
(checking/savings/money-market/credit-line); the OFX renderer is not under
src/. -/
def ofxTypes : List String := ["CHECKING", "SAVINGS", "MONEYMRKT", "CREDITLINE"]

/-- Modelled from the spec: the QIF grammar's two-valued account-type set;
the QIF renderer is not under src/. -/
def qifTypes : List String := ["Bank", "Cash"]

/-- The closed account-type set of the selected output format. -/
def format_types (qif : Bool) : List String := if qif then qifTypes else ofxTypes

/-- The error kinds that the dispatch in run (main.py lines 308-334)
distinguishes, together with the data each carries. -/
inductive RunErr where
  | keyError (field : String)
  | typeError (msg : String)
  | valueError (msg : String)
  | balanceError (expected computed : Rat)
  | unsupportedAccountType (t : String)
  | otherError

/-- Modelled from the spec: header-generation-time validation of the account
type against the selected format's closed set, failing with
UnsupportedAccountType for a value outside it; the renderers (ofx.py,
qif.py) are not under src/. -/
def validate_account_type (qif : Bool) (t : String) : Except RunErr String :=
  if t ∈ format_types qif then .ok t else .error (.unsupportedAccountType t)

/-- The def_type okwargs entry of main.py line 250:
args.account_type or ("Bank" if args.qif else "CHECKING"); `none` models an
omitted -a option. -/
def def_type (account_type : Option String) (qif : Bool) : String :=
  account_type.getD (if qif then "Bank" else "CHECKING")

/-- The start bound placed in okwargs (main.py line 251):
parse(args.start, ...) if args.start else None.  The -s option has no
default, so an omitted -s yields None. -/
def okwargs_start (args_start : Option Int) : Option Int := args_start

/-- The value of args.end (main.py lines 94-100): the -e (end) option has the
argparse default str(dt.now()), so an omitted -e yields the current date. -/
def args_end (user_end : Option Int) (now : Int) : Int := user_end.getD now

/-- The end bound placed in okwargs (main.py line 252):
parse(args.end, ...) if args.end else None.  Because args.end always holds a
nonempty date string, the bound is always present. -/
def okwargs_end (user_end : Option Int) (now : Int) : Option Int :=
  some (args_end user_end now)

/-- Modelled from the spec: the date/range filter applied to the transaction
sequence (it lives in the renderer/utils code, which is not under src/):
both bounds are inclusive, and a bound that is None excludes nothing on its
side. -/
def in_window (start stop : Option Int) (d : Int) : Bool :=
  (match start with
   | none => true
   | some s => decide (s ≤ d)) &&
  (match stop with
   | none => true
   | some e => decide (d ≤ e))

/-- Modelled from the spec: the order-preserving date filter over the
transaction dates. -/
def filter_txns (start stop : Option Int) (dates : List Int) : List Int :=
  dates.filter (in_window start stop)

/-- A value stored in a mapping specification. -/
inductive MVal where
  | str (s : String)
  | num (n : Int)
  | infVal

/-- Python dict.get(key, default) over the mapping specification, modelled
as an association list (main.py lines 265-268). -/
def mapping_get (m : List (String × MVal)) (k : String) (d : MVal) : MVal :=
  (List.lookup k m).getD d

/-- The CLI values that feed the CSV-shape keyword arguments. -/
structure ArgsShape where
  first_row : MVal
  last_row : MVal
  first_col : MVal

/-- The CSV-shape keyword arguments handed to read_csv. -/
structure CKwargs where
  delimiter : MVal
  first_row : MVal
  last_row : MVal
  first_col : MVal

/-- The ckwargs dictionary built in run (main.py lines 262-269): each value
comes from mapping.get with the CLI value (or "," for the delimiter) as the
default. -/
def ckwargs (m : List (String × MVal)) (a : ArgsShape) : CKwargs :=
  { delimiter := mapping_get m "delimiter" (.str ",")
  , first_row := mapping_get m "first_row" a.first_row
  , last_row := mapping_get m "last_row" a.last_row
  , first_col := mapping_get m "first_col" a.first_col }

/-- The server date selection of run (main.py lines 279-287): the parsed
-D (server-date) option when supplied; otherwise dt.fromtimestamp of the
source file's mtime; otherwise (AttributeError or FileNotFoundError, i.e.
stdin or an unresolvable path, modelled as mtime = none) dt.fromtimestamp of
time.time(). -/
def server_date {D : Type} (parsed_server_date : Option D) (fromtimestamp : Int → D)
    (mtime : Option Int) (now : Int) : D :=
  match parsed_server_date with
  | some d => d
  | none => fromtimestamp (mtime.getD now)

/-- The stage methods that the container object (an OFX or QIF instance)
provides to run; their bodies live in ofx.py/qif.py, outside src/, so they
stay abstract. -/
structure Container (Row Group Trxn CleanTrxn Data Fragment : Type) where
  gen_groups : List Row → Nat → List Group
  gen_trxns : List Group → Option String → List Trxn
  clean_trxns : List Trxn → List CleanTrxn
  gen_body : Data → List Fragment

/-- The body pipeline of run (main.py lines 272-277), stage by stage, with
the external read_csv and utils.gen_data abstracted as arguments. -/
def run_pipeline (Source Row Group Trxn CleanTrxn Data Fragment : Type)
    (c : Container Row Group Trxn CleanTrxn Data Fragment)
    (read_csv : Source → List Row) (gen_data : List CleanTrxn → Data)
    (source : Source) (chunksize : Nat) (collapse : Option String) : List Fragment :=
  let records := read_csv source
  let groups := c.gen_groups records chunksize
  let trxns := c.gen_trxns groups collapse
  let cleaned_trxns := c.clean_trxns trxns
  let data := gen_data cleaned_trxns
  c.gen_body data

/-- Follows the spec's words: the rendered body as the explicit left-to-right
composition of the stages read, group, convert, clean, aggregate, render. -/
def spec_stage_composition (Source Row Group Trxn CleanTrxn Data Fragment : Type)
    (c : Container Row Group Trxn CleanTrxn Data Fragment)
    (read_csv : Source → List Row) (gen_data : List CleanTrxn → Data)
    (source : Source) (chunksize : Nat) (collapse : Option String) : List Fragment :=
  c.gen_body (gen_data (c.clean_trxns (c.gen_trxns
    (c.gen_groups (read_csv source) chunksize) collapse)))

/-- Python truthiness of a rendered section: None and an empty fragment
sequence are falsy, so filter(None, ...) at main.py line 291 drops them. -/
def py_truthy : Option (List String) → Bool
  | none => false
  | some l => !l.isEmpty

/-- The text fragments a section contributes: None contributes nothing. -/
def section_fragments : Option (List String) → List String
  | none => []
  | some l => l

/-- The output stream content built in run (main.py lines 289-292):
filtered = filter(None, [header, body, footer]);
content = it.chain.from_iterable(filtered). -/
def run_content (header body footer : Option (List String)) : List String :=
  (([header, body, footer].filter py_truthy).map section_fragments).flatten

/-- The argument run passes to sys.exit: an integer code or a message string
(sys.exit of a nonempty string prints it and exits with code 1). -/
inductive ExitArg where
  | code (n : Nat)
  | msg (s : String)

/-- The process exit code produced by sys.exit on each argument kind. -/
def exit_code : ExitArg → Nat
  | .code n => n
  | .msg _ => 1

/-- What run does on one exit path: the sys.exit argument, and whether a
traceback or the parser help text was printed first. -/
structure ExitOutcome where
  exit_arg : ExitArg
  prints_traceback : Bool
  prints_help : Bool

/-- Modelled from the spec: the message a BalanceError carries names both the
expected and the computed value; the BalanceError class itself lives in
csv2ofx/__init__.py, outside src/, so only its shape is fixed here. -/
def balance_error_str (expected computed : Rat) : String :=
  "Ending balance " ++ toString expected ++ " does not match actual balance "
    ++ toString computed

/-- The except/else dispatch wrapped around the write call in run
(main.py lines 308-334): which sys.exit argument each outcome produces, and
whether a traceback or the help text is printed. -/
def dispatch_write (collapse : Bool) (r : Except RunErr Bool) : ExitOutcome :=
  match r with
  | .ok res =>
    { exit_arg :=
        if res then .code 0 else .msg "No data to write. Check `start` and `end` options."
    , prints_traceback := false
    , prints_help := false }
  | .error (.keyError f) =>
    { exit_arg := .msg ("Field " ++ f ++ " is missing from file. Check `mapping` option.")
    , prints_traceback := true
    , prints_help := false }
  | .error (.typeError m) =>
    { exit_arg := .msg ("No data to write. " ++ m ++ ". " ++
        (if collapse then "Check `start` and `end` options."
         else "Try again with `-c` option."))
    , prints_traceback := false
    , prints_help := false }
  | .error (.valueError m) =>
    { exit_arg := .msg ("Possible mapping problem: " ++ m ++ ".")
    , prints_traceback := false
    , prints_help := true }
  | .error (.balanceError e c) =>
    { exit_arg := .msg (balance_error_str e c ++ ".  Try again with `--ending-balance` option.")
    , prints_traceback := false
    , prints_help := false }
  | .error _ =>
    { exit_arg := .code 1
    , prints_traceback := true
    , prints_help := false }

/-- Modelled from the spec: strict-mode reconciliation of the computed final
balance against a supplied expected ending balance within a small epsilon,
failing with BalanceMismatch carrying both values; the footer code that runs
the check (ofx.py/qif.py) is not under src/.  The check only runs when an
expected balance is supplied and strict mode is on. -/
def check_balance (strict : Bool) (expected : Option Rat) (computed eps : Rat) :
    Except RunErr Unit :=
  match strict, expected with
  | true, some e => if |computed - e| ≤ eps then .ok () else .error (.balanceError e computed)
  | _, _ => .ok ()

/-- Modelled from the spec: a rendered output with zero transactions makes
the write stage raise TypeError (the EmptyResult signal caught at main.py
lines 313-319); meza.io.write is not under src/. -/
def write_stage (txn_count : Nat) (empty_err_msg : String) : Except RunErr Bool :=
  if txn_count = 0 then .error (.typeError empty_err_msg) else .ok true

/-- The point at which a run can fail, for the resource model. -/
inductive FailPoint where
  | noFail
  | pipelineSetup
  | openDest
  | writeStage

/-- Which path-backed handles are still open when the process exits. -/
structure Handles where
  source_open : Bool
  dest_open : Bool

/-- File-handle state at process exit for each way run can terminate
(main.py lines 258, 271-334).  A failure inside the first try block is
caught at lines 298-300, which close the source before exiting (the
destination is not open yet).  A failure of builtins.open(args.dest) at
lines 302-306 is caught by nothing: the exception propagates out of run with
the source handle still open.  The write try at lines 308-334 ends in a
finally that closes both handles.  A flag is true only for a handle opened
from a path (stdin/stdout are never closed and carry no flag). -/
def run_handles (has_source has_dest : Bool) (fail : FailPoint) : Handles :=
  match fail with
  | .pipelineSetup => { source_open := false, dest_open := false }
  | .openDest =>
    if has_dest then { source_open := has_source, dest_open := false }
    else { source_open := false, dest_open := false }
  | _ => { source_open := false, dest_open := false }

theorem filter_truthy_map_join (ss : List (Option (List String))) :
    ((ss.filter py_truthy).map section_fragments).flatten
      = (ss.map section_fragments).flatten := by
  induction ss with
  | nil => rfl
  | cons o rest ih =>
    cases o with
    | none => simpa [py_truthy, section_fragments] using ih
    | some l =>
      cases l with
      | nil => simpa [py_truthy, section_fragments] using ih
      | cons x xs => simp [py_truthy, section_fragments, ih]

/-- Claim C1: the rendered body produced by run is exactly the composition of
the stages read, group (with the chunk size), convert (with the collapse
key), clean, aggregate, render, applied in this left-to-right order. -/
theorem claim_C1_pipeline_order (Source Row Group Trxn CleanTrxn Data Fragment : Type)
    (c : Container Row Group Trxn CleanTrxn Data Fragment)
    (read_csv : Source → List Row) (gen_data : List CleanTrxn → Data)
    (source : Source) (chunksize : Nat) (collapse : Option String) :
    run_pipeline Source Row Group Trxn CleanTrxn Data Fragment c read_csv gen_data
        source chunksize collapse
      = spec_stage_composition Source Row Group Trxn CleanTrxn Data Fragment c read_csv
        gen_data source chunksize collapse := rfl

/-- Claim C2: the output stream is the concatenation header ++ body ++ footer
in this order, a section that is None or empty contributing no text. -/
theorem claim_C2_output_concatenation (header body footer : Option (List String)) :
    run_content header body footer
      = section_fragments header ++ section_fragments body ++ section_fragments footer := by
  have h := filter_truthy_map_join [header, body, footer]
  simpa [run_content, List.append_assoc] using h

/-- Claim C3 counterexample: with -s and -e both omitted and the current date
being day 0, the end bound is some 0 (not unbounded, because the -e option
defaults to str(dt.now())), and a transaction dated day 1 is excluded even
though the user omitted the end bound. -/
theorem claim_C3_counterexample :
    okwargs_end none 0 = some 0 ∧
    filter_txns (okwargs_start none) (okwargs_end none 0) [1] = [] := by
  exact ⟨rfl, rfl⟩

/-- Claim C3 amended: both bounds are inclusive; an omitted -s leaves the
start side unbounded (start = None excludes nothing on its side), but an
omitted -e defaults to the current date, so the end bound is always present
and equal to now, and exactly the transactions dated at most now are kept. -/
theorem claim_C3_amended (now s e : Int) (user_start : Option Int) (dates : List Int) :
    okwargs_start none = none ∧
    okwargs_start user_start = user_start ∧
    okwargs_end none now = some now ∧
    in_window (some s) (some e) s = decide (s ≤ e) ∧
    in_window (some s) (some e) e = decide (s ≤ e) ∧
    filter_txns none (some now) dates = dates.filter (fun d => decide (d ≤ now)) ∧
    filter_txns none none dates = dates := by
  refine ⟨rfl, rfl, rfl, by simp [in_window], by simp [in_window], ?_, ?_⟩
  · exact List.filter_congr (fun d _ => by simp [in_window])
  · simp [filter_txns, in_window]

/-- Claim C4: with strict mode on, an expected ending balance supplied and
the computed balance differing by more than epsilon, the check fails with
BalanceError carrying both values, and the dispatch in run maps that error
to a message ending in the `--ending-balance` hint and to a nonzero exit. -/
theorem claim_C4_balance_mismatch (eps expected computed : Rat) (collapse : Bool)
    (h : eps < |computed - expected|) :
    check_balance true (some expected) computed eps
        = .error (.balanceError expected computed) ∧
    dispatch_write collapse (.error (.balanceError expected computed))
      = { exit_arg := .msg (balance_error_str expected computed
            ++ ".  Try again with `--ending-balance` option.")
        , prints_traceback := false
        , prints_help := false } ∧
    exit_code (dispatch_write collapse
        (.error (.balanceError expected computed))).exit_arg ≠ 0 := by
  refine ⟨?_, rfl, by simp [dispatch_write, exit_code]⟩
  simp [check_balance, not_le.mpr h]

/-- Claim C4 witness: the spec scenario with expected ending balance 100,
computed final balance -50, epsilon 1/100 and strict mode on. -/
theorem claim_C4_witness :
    ((1 : Rat)/100 < |(-50 : Rat) - 100|) ∧
    (check_balance true (some 100) (-50) ((1 : Rat)/100)
        = .error (.balanceError 100 (-50)) ∧
    dispatch_write false (.error (.balanceError 100 (-50)))
      = { exit_arg := .msg (balance_error_str 100 (-50)
            ++ ".  Try again with `--ending-balance` option.")
        , prints_traceback := false
        , prints_help := false } ∧
    exit_code (dispatch_write false
        (.error (.balanceError 100 (-50)))).exit_arg ≠ 0) := by
  have h : (1 : Rat)/100 < |(-50 : Rat) - 100| := by
    have he : ((-50 : Rat) - 100) = -150 := by norm_num
    rw [he, abs_neg, abs_of_nonneg (by norm_num : (0 : Rat) ≤ 150)]
    norm_num
  exact ⟨h, claim_C4_balance_mismatch ((1 : Rat)/100) 100 (-50) false h⟩

/-- Claim C5: a rendered output with zero transactions signals the TypeError
caught at main.py lines 313-319; the caller exits with a remediation message
that suggests checking the start and end options when a collapse key was
supplied and supplying the -c option otherwise, and unlike the fatal kinds
(KeyError and the bare Exception handler) it prints no traceback.  The
res-falsy path of line 330 produces its own no-data message. -/
theorem claim_C5_empty_result (m f : String) (c : Bool) :
    write_stage 0 m = .error (.typeError m) ∧
    dispatch_write true (.error (.typeError m))
      = { exit_arg := .msg ("No data to write. " ++ m ++ ". "
            ++ "Check `start` and `end` options.")
        , prints_traceback := false
        , prints_help := false } ∧
    dispatch_write false (.error (.typeError m))
      = { exit_arg := .msg ("No data to write. " ++ m ++ ". "
            ++ "Try again with `-c` option.")
        , prints_traceback := false
        , prints_help := false } ∧
    dispatch_write c (.ok false)
      = { exit_arg := .msg "No data to write. Check `start` and `end` options."
        , prints_traceback := false
        , prints_help := false } ∧
    (dispatch_write c (.error (.keyError f))).prints_traceback = true ∧
    (dispatch_write c (.error .otherError)).prints_traceback = true ∧
    (dispatch_write c (.error (.typeError m))).prints_traceback = false := by
  exact ⟨rfl, rfl, rfl, rfl, rfl, rfl, rfl⟩

/-- Claim C6: the TYPES list of main.py is exactly the union of the OFX set
(checking, savings, money-market, credit-line) and the QIF set (Bank, Cash),
and header-time validation accepts an account type exactly when it lies in
the selected format's set, failing with UnsupportedAccountType otherwise. -/
theorem claim_C6_account_type_sets (qif : Bool) (t : String) :
    TYPES = ofxTypes ++ qifTypes ∧
    ((validate_account_type qif t = .ok t ∧ t ∈ format_types qif) ∨
     (validate_account_type qif t = .error (.unsupportedAccountType t)
        ∧ t ∉ format_types qif)) := by
  refine ⟨rfl, ?_⟩
  by_cases h : t ∈ format_types qif
  · exact Or.inl ⟨by simp [validate_account_type, h], h⟩
  · exact Or.inr ⟨by simp [validate_account_type, h], h⟩

/-- Claim C6 witness: with OFX output selected, the value Bank (accepted by
the CLI, since it sits in TYPES) is outside the OFX set and is rejected at
header time, while CHECKING is accepted. -/
theorem claim_C6_witness :
    (TYPES = ofxTypes ++ qifTypes ∧
      ((validate_account_type false "Bank" = .ok "Bank"
          ∧ "Bank" ∈ format_types false) ∨
       (validate_account_type false "Bank"
            = .error (.unsupportedAccountType "Bank")
          ∧ "Bank" ∉ format_types false))) ∧
    validate_account_type false "CHECKING" = .ok "CHECKING" ∧
    validate_account_type true "Bank" = .ok "Bank" := by
  refine ⟨claim_C6_account_type_sets false "Bank", rfl, rfl⟩

/-- Claim C7 evaluation: when a source path and a destination path are both
given, every termination point of run closes both handles except a failure
of builtins.open on the destination (main.py line 302, outside both try
blocks), which leaves the source handle open at process exit. -/
theorem claim_C7_handle_leak_on_open_dest :
    run_handles true true .openDest = { source_open := true, dest_open := false } ∧
    run_handles true true .noFail = { source_open := false, dest_open := false } ∧
    run_handles true true .pipelineSetup = { source_open := false, dest_open := false } ∧
    run_handles true true .writeStage = { source_open := false, dest_open := false } := by
  exact ⟨rfl, rfl, rfl, rfl⟩

/-- Claim C8: with the -a option omitted, the def_type okwargs entry is Bank
when QIF output is selected and CHECKING when OFX output is selected; the
expression at main.py line 250 depends on nothing else. -/
theorem claim_C8_default_account_type :
    def_type none true = "Bank" ∧ def_type none false = "CHECKING" := by
  exact ⟨rfl, rfl⟩

/-- Claim C9: each CSV-shape entry of ckwargs is the mapping value when the
mapping has the key and the CLI value otherwise, the delimiter defaulting to
a comma; a mapping entry therefore always overrides the CLI option. -/
theorem claim_C9_mapping_overrides_cli (m : List (String × MVal)) (v : MVal)
    (a : ArgsShape) :
    (ckwargs m a).delimiter = (List.lookup "delimiter" m).getD (.str ",") ∧
    (ckwargs m a).first_row = (List.lookup "first_row" m).getD a.first_row ∧
    (ckwargs m a).last_row = (List.lookup "last_row" m).getD a.last_row ∧
    (ckwargs m a).first_col = (List.lookup "first_col" m).getD a.first_col ∧
    (ckwargs (("first_row", v) :: m) a).first_row = v ∧
    (ckwargs [] a).first_row = a.first_row ∧
    (ckwargs [] a).last_row = a.last_row ∧
    (ckwargs [] a).first_col = a.first_col ∧
    (ckwargs [] a).delimiter = .str "," := by
  exact ⟨rfl, rfl, rfl, rfl, rfl, rfl, rfl, rfl, rfl⟩

/-- Claim C10: the header/footer date is the parsed server-date option when
supplied, regardless of mtime and clock; otherwise the timestamp conversion
of the source file's mtime when it resolves; otherwise the timestamp
conversion of the current wall-clock time. -/
theorem claim_C10_server_date_fallback (D : Type) (d : D) (fromts : Int → D)
    (mt now : Int) :
    server_date (some d) fromts (some mt) now = d ∧
    server_date (some d) fromts none now = d ∧
    @server_date D none fromts (some mt) now = fromts mt ∧
    @server_date D none fromts none now = fromts now := by
  exact ⟨rfl, rfl, rfl, rfl⟩

end Csv2ofx
